import Mathlib

/-!
Verification of the license-check module (`src/your_project/license_check.py`).

The module is embedded shallowly:

* `LicenseStatus` mirrors the `@dataclass LicenseStatus`.
* `Config` collects the process configuration read from the environment:
  the `DISABLE_LICENSE_CHECK` flag, the `LICENSE_SERVER_URL`, the name of
  the environment variable holding the key (`ENV_LICENSE_KEY`), and the
  value of that variable (`key_value`, `none` when unset).
* `HttpOutcome` models the outcome of the single `requests.get` call:
  either a transport exception (`requests.RequestException`) or a response
  with a status code, a body text, and — for the `resp.json()` step — an
  optional parsed record (`none` models an unparseable body, in which case
  `resp.json()` raises a JSON decode error that the Python code does not
  catch, since the `try` block only wraps `requests.get`).
* The process-wide mutable cache `_cached_license` is passed explicitly:
  every function takes the cache before the call and returns the cache
  after the call, together with the number of network requests performed
  (0 or 1), so that "performs no network verification call" is a statement
  about that count.
* Raised exceptions become `Except.error` of a `PyError`.
-/

/-- Mirrors the Python exception kinds that can escape the module:
`LicenseValidationError`, `PermissionError`, and the
`requests.exceptions.JSONDecodeError` raised by `resp.json()` on an
unparseable body (which the module does not catch). -/
inductive PyError where
  | licenseValidationError (msg : String)
  | permissionError (msg : String)
  | jsonDecodeError (msg : String)
deriving DecidableEq, Repr

/-- Mirrors `@dataclass LicenseStatus` with its field defaults. -/
structure LicenseStatus where
  valid : Bool
  reason : String
  license_id : Option String := none
  plan : Option String := none
  seats : Option Int := none
  customer_name : Option String := none
deriving DecidableEq, Repr

/-- The parsed JSON body of a successful response (`data = resp.json()`).
Each field is `none` when the corresponding key is absent from the
response object; the `data.get(...)` defaults are applied in
`statusFromWire`, not here. -/
structure WireData where
  valid : Option Bool := none
  reason : Option String := none
  license_id : Option String := none
  plan : Option String := none
  seats : Option Int := none
  customer_name : Option String := none
deriving DecidableEq, Repr

/-- Process configuration, read from the environment at import time. -/
structure Config where
  DISABLE_LICENSE_CHECK : Bool
  LICENSE_SERVER_URL : String
  ENV_LICENSE_KEY : String
  key_value : Option String
deriving DecidableEq, Repr

/-- Outcome of the one `requests.get(url, params, timeout=5)` call.
`response code text body`: `code` is `resp.status_code`, `text` is
`resp.text`, and `body` is the result of `resp.json()` (`none` when the
body is unparseable and `resp.json()` would raise). -/
inductive HttpOutcome where
  | transportError (msg : String)
  | response (code : Nat) (text : String) (body : Option WireData)
deriving DecidableEq, Repr

/-- The `LicenseStatus(...)` construction on the success path of
`_verify_license_online`: applies the `data.get` defaults
(`valid` defaults to `False`, `reason` to `"Unknown"`; the four optional
fields stay absent when absent). -/
def statusFromWire (data : WireData) : LicenseStatus :=
  { valid := data.valid.getD false
    reason := data.reason.getD "Unknown"
    license_id := data.license_id
    plan := data.plan
    seats := data.seats
    customer_name := data.customer_name }

/-- Python `str.strip()`: remove whitespace from both ends of a string
(written over the character list so that it is structurally recursive). -/
def pyStrip (s : String) : String :=
  String.mk
    (List.reverse (List.dropWhile Char.isWhitespace
      (List.reverse (List.dropWhile Char.isWhitespace s.data))))

/-- Mirrors `_get_license_key_from_env`: read the configured variable
(default `""` when unset), strip whitespace, and raise when the result is
empty. -/
def _get_license_key_from_env (cfg : Config) : Except PyError String :=
  let key := pyStrip (cfg.key_value.getD "")
  if key = "" then
    Except.error (PyError.licenseValidationError
      ("No license key found. Set environment variable " ++ cfg.ENV_LICENSE_KEY ++ "."))
  else
    Except.ok key

/-- Mirrors `_verify_license_online`.  Returns the result together with
the number of network requests performed.  `resp.ok` in `requests` is
false exactly for status codes in `[400, 600)`.  An unparseable body
(`body = none`) raises the JSON decode error uncaught, because the
`try` block in the source only wraps `requests.get`. -/
def _verify_license_online (cfg : Config) (net : HttpOutcome) (key : String) :
    Except PyError LicenseStatus × Nat :=
  if cfg.DISABLE_LICENSE_CHECK then
    (Except.ok
      { valid := true
        reason := "License check disabled via DISABLE_LICENSE_CHECK"
        license_id := some "DEV-MODE"
        plan := some "dev"
        seats := some 1
        customer_name := some "Development Mode" }, 0)
  else if cfg.LICENSE_SERVER_URL = "" then
    (Except.error (PyError.licenseValidationError "LICENSE_SERVER_URL is not configured."), 0)
  else
    let _url := (cfg.LICENSE_SERVER_URL.dropRightWhile (· == '/')) ++ "/verify"
    match net with
    | HttpOutcome.transportError msg =>
        (Except.error (PyError.licenseValidationError
          ("Could not contact license server: " ++ msg)), 1)
    | HttpOutcome.response code text body =>
        if code = 404 then
          (Except.ok { valid := false, reason := "License not found" }, 1)
        else if 400 ≤ code ∧ code < 600 then
          (Except.error (PyError.licenseValidationError
            ("License server error (" ++ toString code ++ "): " ++ text)), 1)
        else
          match body with
          | none =>
              (Except.error (PyError.jsonDecodeError
                "Expecting value: line 1 column 1 (char 0)"), 1)
          | some data => (Except.ok (statusFromWire data), 1)

/-- Mirrors `enforce_license`.  Takes the cache slot before the call and
returns `(result, cache after the call, network requests performed)`. -/
def enforce_license (cfg : Config) (net : HttpOutcome) (cache : Option LicenseStatus) :
    Except PyError LicenseStatus × Option LicenseStatus × Nat :=
  match cache with
  | some st =>
      if st.valid then (Except.ok st, some st, 0)
      else (Except.error (PyError.licenseValidationError
        ("Invalid license: " ++ st.reason)), some st, 0)
  | none =>
      match _get_license_key_from_env cfg with
      | Except.error e => (Except.error e, none, 0)
      | Except.ok key =>
          match _verify_license_online cfg net key with
          | (Except.error e, n) => (Except.error e, none, n)
          | (Except.ok status, n) =>
              if status.valid then (Except.ok status, some status, n)
              else (Except.error (PyError.licenseValidationError
                ("Invalid license: " ++ status.reason)), some status, n)

/-- Mirrors `get_license_status`: delegate to `enforce_license` when the
cache is empty, otherwise re-check the cached validity without a network
call. -/
def get_license_status (cfg : Config) (net : HttpOutcome) (cache : Option LicenseStatus) :
    Except PyError LicenseStatus × Option LicenseStatus × Nat :=
  match cache with
  | none => enforce_license cfg net none
  | some st =>
      if st.valid then (Except.ok st, some st, 0)
      else (Except.error (PyError.licenseValidationError
        ("Invalid license: " ++ st.reason)), some st, 0)

/-- Mirrors the wrapper produced by `require_license(plan)` applied to
`func`: one call of the wrapped operation on `arg`, with the cache passed
explicitly. -/
def require_license {α β : Type} (plan : Option String) (func : α → β)
    (cfg : Config) (net : HttpOutcome) (cache : Option LicenseStatus) (arg : α) :
    Except PyError β × Option LicenseStatus × Nat :=
  match get_license_status cfg net cache with
  | (Except.error e, cache2, n) => (Except.error e, cache2, n)
  | (Except.ok status, cache2, n) =>
      match plan with
      | none => (Except.ok (func arg), cache2, n)
      | some p =>
          match status.plan with
          | none =>
              (Except.error (PyError.permissionError
                ("This feature requires plan '" ++ p ++
                  "', but your license has no plan assigned.")), cache2, n)
          | some sp =>
              if sp ≠ p then
                (Except.error (PyError.permissionError
                  ("This feature requires plan '" ++ p ++
                    "', but your license plan is '" ++ sp ++ "'.")), cache2, n)
              else (Except.ok (func arg), cache2, n)

/-- Python `repr` of a list of strings, as produced by the f-string
`f"{plans}"` in `require_license_any`. -/
def pyListRepr (plans : List String) : String :=
  "[" ++ String.intercalate ", " (plans.map (fun p => "'" ++ p ++ "'")) ++ "]"

/-- Mirrors the wrapper produced by `require_license_any(plans)` applied
to `func`.  Note the truthiness test `if not status.plan:` treats both
`None` and `""` as "no plan assigned". -/
def require_license_any {α β : Type} (plans : List String) (func : α → β)
    (cfg : Config) (net : HttpOutcome) (cache : Option LicenseStatus) (arg : α) :
    Except PyError β × Option LicenseStatus × Nat :=
  match get_license_status cfg net cache with
  | (Except.error e, cache2, n) => (Except.error e, cache2, n)
  | (Except.ok status, cache2, n) =>
      if status.plan = none ∨ status.plan = some "" then
        (Except.error (PyError.permissionError
          ("This feature requires one of plans " ++ pyListRepr plans ++
            ", but your license has no plan assigned.")), cache2, n)
      else if (status.plan.getD "") ∉ plans then
        (Except.error (PyError.permissionError
          ("This feature requires one of plans " ++ pyListRepr plans ++
            ", but your license plan is '" ++ status.plan.getD "" ++ "'.")), cache2, n)
      else (Except.ok (func arg), cache2, n)

/-- The hardcoded development-mode status returned when
`DISABLE_LICENSE_CHECK` is set. -/
def devStatus : LicenseStatus :=
  { valid := true
    reason := "License check disabled via DISABLE_LICENSE_CHECK"
    license_id := some "DEV-MODE"
    plan := some "dev"
    seats := some 1
    customer_name := some "Development Mode" }

/-- A configuration with the default server URL and variable name and a
key present in the environment. -/
def cfgStd : Config :=
  { DISABLE_LICENSE_CHECK := false
    LICENSE_SERVER_URL := "https://your-license-server.example.com"
    ENV_LICENSE_KEY := "MYAPP_LICENSE_KEY"
    key_value := some "KEY-123" }

/-- Development mode enabled, no key set in the environment. -/
def cfgDevNoKey : Config :=
  { cfgStd with DISABLE_LICENSE_CHECK := true, key_value := none }

/-- Development mode enabled, key present. -/
def cfgDev : Config :=
  { cfgStd with DISABLE_LICENSE_CHECK := true }

/-- A valid cached status on the "pro" plan. -/
def stPro : LicenseStatus :=
  { valid := true, reason := "OK", plan := some "pro" }

/-- A valid cached status with no plan assigned. -/
def stNoPlan : LicenseStatus :=
  { valid := true, reason := "OK" }

/-- A valid cached status on the "enterprise" plan. -/
def stEnterprise : LicenseStatus :=
  { valid := true, reason := "OK", plan := some "enterprise" }

/-- A valid cached status on the "free" plan. -/
def stFree : LicenseStatus :=
  { valid := true, reason := "OK", plan := some "free" }

/-- A valid cached status whose plan is the empty string. -/
def stEmptyPlan : LicenseStatus :=
  { valid := true, reason := "OK", plan := some "" }

/-- C1: with the cache populated (valid or invalid), `enforce_license` and
`get_license_status` perform no network call; they return the cached
status when it is valid and raise `LicenseValidationError` reusing the
cached reason when it is invalid. -/
theorem cached_calls_no_network (cfg : Config) (net : HttpOutcome) (st : LicenseStatus) :
    enforce_license cfg net (some st) =
      ((if st.valid then Except.ok st
        else Except.error (PyError.licenseValidationError ("Invalid license: " ++ st.reason))),
       some st, 0)
    ∧ get_license_status cfg net (some st) =
      ((if st.valid then Except.ok st
        else Except.error (PyError.licenseValidationError ("Invalid license: " ++ st.reason))),
       some st, 0) := by
  cases h : st.valid <;> simp [enforce_license, get_license_status, h]

/-- Network-call count of one `_verify_license_online` invocation outside
development mode with a configured URL: exactly one request. -/
theorem verify_online_one_call (cfg : Config) (net : HttpOutcome) (key : String)
    (hdev : cfg.DISABLE_LICENSE_CHECK = false)
    (hurl : ¬ cfg.LICENSE_SERVER_URL = "") :
    (_verify_license_online cfg net key).2 = 1 := by
  cases net with
  | transportError msg => simp [_verify_license_online, hdev, hurl]
  | response code text body =>
      simp only [_verify_license_online, hdev, Bool.false_eq_true, if_false, hurl, if_neg]
      split
      · rfl
      · split
        · rfl
        · cases body <;> rfl

/-- C2: a transport failure on the first call raises
`LicenseValidationError` and leaves the cache empty, so a subsequent call
performs the network request again. -/
theorem transport_failure_not_cached (cfg : Config) (msg : String) (net2 : HttpOutcome)
    (hdev : cfg.DISABLE_LICENSE_CHECK = false)
    (hurl : ¬ cfg.LICENSE_SERVER_URL = "")
    (hkey : ¬ pyStrip (cfg.key_value.getD "") = "") :
    enforce_license cfg (HttpOutcome.transportError msg) none =
      (Except.error (PyError.licenseValidationError
        ("Could not contact license server: " ++ msg)), none, 1)
    ∧ (enforce_license cfg net2 none).2.2 = 1 := by
  constructor
  · simp [enforce_license, _get_license_key_from_env, _verify_license_online, hdev, hurl, hkey]
  · have h1 := verify_online_one_call cfg net2 (pyStrip (cfg.key_value.getD "")) hdev hurl
    simp only [enforce_license, _get_license_key_from_env, hkey, if_neg, if_false]
    revert h1
    cases hv : _verify_license_online cfg net2 (pyStrip (cfg.key_value.getD "")) with
    | mk r n =>
        intro h1
        cases r with
        | error e => simpa using h1
        | ok status =>
            cases hs : status.valid <;> simpa [hs] using h1

/-- C2 witness: concrete transport failure with the standard
configuration, retried with a 404 response on the second call. -/
theorem transport_failure_not_cached_witness :
    enforce_license cfgStd (HttpOutcome.transportError "timeout") none =
      (Except.error (PyError.licenseValidationError
        ("Could not contact license server: " ++ "timeout")), none, 1)
    ∧ (enforce_license cfgStd (HttpOutcome.response 404 "" none) none).2.2 = 1 :=
  transport_failure_not_cached cfgStd "timeout" (HttpOutcome.response 404 "" none)
    rfl (by decide) (by decide)

/-- C3 counterexample: with development mode enabled but no license key in
the environment, `enforce_license` raises the missing-key
`LicenseValidationError` instead of returning the always-valid "dev"
status. -/
theorem dev_mode_missing_key_cex :
    (enforce_license cfgDevNoKey (HttpOutcome.response 200 "" none) none).1 =
      Except.error (PyError.licenseValidationError
        "No license key found. Set environment variable MYAPP_LICENSE_KEY.")
    ∧ (enforce_license cfgDevNoKey (HttpOutcome.response 200 "" none) none).1 ≠
        Except.ok devStatus := by
  refine ⟨rfl, fun hc => ?_⟩
  rw [show (enforce_license cfgDevNoKey (HttpOutcome.response 200 "" none) none).1 =
      Except.error (PyError.licenseValidationError
        "No license key found. Set environment variable MYAPP_LICENSE_KEY.") from rfl] at hc
  exact Except.noConfusion hc

/-- C3 (amended): with development mode enabled, enforcement performs no
network call whatever the URL, the key, or the response would have been;
and whenever a non-blank key is present, the returned status is the
hardcoded dev status (valid, plan "dev", customer "Development Mode").
When the key is absent or blank, enforcement raises the missing-key error
(still without any network call). -/
theorem dev_mode_no_network (cfg : Config) (net : HttpOutcome)
    (hdev : cfg.DISABLE_LICENSE_CHECK = true) :
    (enforce_license cfg net none).2.2 = 0
    ∧ (get_license_status cfg net none).2.2 = 0
    ∧ (¬ pyStrip (cfg.key_value.getD "") = "" →
        enforce_license cfg net none = (Except.ok devStatus, some devStatus, 0)
        ∧ get_license_status cfg net none = (Except.ok devStatus, some devStatus, 0)) := by
  refine ⟨?_, ?_, ?_⟩
  · by_cases hkey : pyStrip (cfg.key_value.getD "") = "" <;>
      simp [enforce_license, _get_license_key_from_env, _verify_license_online, hdev, hkey,
        devStatus]
  · by_cases hkey : pyStrip (cfg.key_value.getD "") = "" <;>
      simp [get_license_status, enforce_license, _get_license_key_from_env,
        _verify_license_online, hdev, hkey, devStatus]
  · intro hkey
    constructor <;>
      simp [get_license_status, enforce_license, _get_license_key_from_env,
        _verify_license_online, hdev, hkey, devStatus]

/-- C3 witness: development mode with a key present and a transport error
pending on the wire: no network call, dev status returned. -/
theorem dev_mode_no_network_witness :
    (enforce_license cfgDev (HttpOutcome.transportError "down") none).2.2 = 0
    ∧ (get_license_status cfgDev (HttpOutcome.transportError "down") none).2.2 = 0
    ∧ enforce_license cfgDev (HttpOutcome.transportError "down") none =
        (Except.ok devStatus, some devStatus, 0) := by
  have h := dev_mode_no_network cfgDev (HttpOutcome.transportError "down") rfl
  exact ⟨h.1, h.2.1, (h.2.2 (by decide)).1⟩

/-- C4: an operation gated by `require_license("enterprise")` on a valid
cached status: plan "pro" raises the `PermissionError` naming both plans,
no plan raises the `PermissionError` naming the required plan, and plan
"enterprise" runs the operation and returns its result unchanged. -/
theorem require_license_enterprise_gate {α β : Type} (f : α → β) (a : α)
    (cfg : Config) (net : HttpOutcome) (st : LicenseStatus) (hv : st.valid = true) :
    (st.plan = some "pro" →
      require_license (some "enterprise") f cfg net (some st) a =
        (Except.error (PyError.permissionError
          "This feature requires plan 'enterprise', but your license plan is 'pro'."),
         some st, 0))
    ∧ (st.plan = none →
      require_license (some "enterprise") f cfg net (some st) a =
        (Except.error (PyError.permissionError
          "This feature requires plan 'enterprise', but your license has no plan assigned."),
         some st, 0))
    ∧ (st.plan = some "enterprise" →
      require_license (some "enterprise") f cfg net (some st) a =
        (Except.ok (f a), some st, 0)) := by
  refine ⟨fun hp => ?_, fun hp => ?_, fun hp => ?_⟩ <;>
    simp [require_license, get_license_status, hv, hp]

/-- C4 witness: the three branches at concrete cached statuses, with a
concrete wrapped operation. -/
theorem require_license_enterprise_gate_witness :
    require_license (some "enterprise") (fun n : Nat => n + 1) cfgStd
        (HttpOutcome.transportError "down") (some stPro) 41 =
      (Except.error (PyError.permissionError
        "This feature requires plan 'enterprise', but your license plan is 'pro'."),
       some stPro, 0)
    ∧ require_license (some "enterprise") (fun n : Nat => n + 1) cfgStd
        (HttpOutcome.transportError "down") (some stNoPlan) 41 =
      (Except.error (PyError.permissionError
        "This feature requires plan 'enterprise', but your license has no plan assigned."),
       some stNoPlan, 0)
    ∧ require_license (some "enterprise") (fun n : Nat => n + 1) cfgStd
        (HttpOutcome.transportError "down") (some stEnterprise) 41 =
      (Except.ok 42, some stEnterprise, 0) :=
  ⟨(require_license_enterprise_gate (fun n : Nat => n + 1) 41 cfgStd
      (HttpOutcome.transportError "down") stPro rfl).1 rfl,
   (require_license_enterprise_gate (fun n : Nat => n + 1) 41 cfgStd
      (HttpOutcome.transportError "down") stNoPlan rfl).2.1 rfl,
   (require_license_enterprise_gate (fun n : Nat => n + 1) 41 cfgStd
      (HttpOutcome.transportError "down") stEnterprise rfl).2.2 rfl⟩

/-- C5: an operation gated by `require_license_any(["pro", "enterprise"])`
on a valid cached status: plan "pro" runs the operation and returns its
result unchanged, no plan raises the `PermissionError` naming the required
set, and plan "free" raises the `PermissionError` naming the required set
and the actual plan. -/
theorem require_license_any_gate {α β : Type} (f : α → β) (a : α)
    (cfg : Config) (net : HttpOutcome) (st : LicenseStatus) (hv : st.valid = true) :
    (st.plan = some "pro" →
      require_license_any ["pro", "enterprise"] f cfg net (some st) a =
        (Except.ok (f a), some st, 0))
    ∧ (st.plan = none →
      require_license_any ["pro", "enterprise"] f cfg net (some st) a =
        (Except.error (PyError.permissionError
          "This feature requires one of plans ['pro', 'enterprise'], but your license has no plan assigned."),
         some st, 0))
    ∧ (st.plan = some "free" →
      require_license_any ["pro", "enterprise"] f cfg net (some st) a =
        (Except.error (PyError.permissionError
          "This feature requires one of plans ['pro', 'enterprise'], but your license plan is 'free'."),
         some st, 0)) := by
  refine ⟨fun hp => ?_, fun hp => ?_, fun hp => ?_⟩ <;>
    simp [require_license_any, get_license_status, pyListRepr, hv, hp] <;>
    decide

/-- C5 witness: the three branches at concrete cached statuses, with a
concrete wrapped operation. -/
theorem require_license_any_gate_witness :
    require_license_any ["pro", "enterprise"] (fun n : Nat => n * 2) cfgStd
        (HttpOutcome.transportError "down") (some stPro) 21 =
      (Except.ok 42, some stPro, 0)
    ∧ require_license_any ["pro", "enterprise"] (fun n : Nat => n * 2) cfgStd
        (HttpOutcome.transportError "down") (some stNoPlan) 21 =
      (Except.error (PyError.permissionError
        "This feature requires one of plans ['pro', 'enterprise'], but your license has no plan assigned."),
       some stNoPlan, 0)
    ∧ require_license_any ["pro", "enterprise"] (fun n : Nat => n * 2) cfgStd
        (HttpOutcome.transportError "down") (some stFree) 21 =
      (Except.error (PyError.permissionError
        "This feature requires one of plans ['pro', 'enterprise'], but your license plan is 'free'."),
       some stFree, 0) :=
  ⟨(require_license_any_gate (fun n : Nat => n * 2) 21 cfgStd
      (HttpOutcome.transportError "down") stPro rfl).1 rfl,
   (require_license_any_gate (fun n : Nat => n * 2) 21 cfgStd
      (HttpOutcome.transportError "down") stNoPlan rfl).2.1 rfl,
   (require_license_any_gate (fun n : Nat => n * 2) 21 cfgStd
      (HttpOutcome.transportError "down") stFree rfl).2.2 rfl⟩

/-- C6: when the configured variable is unset or its value is blank after
stripping, `enforce_license` raises the missing-key
`LicenseValidationError` naming the variable, makes no network call, and
leaves the cache empty. -/
theorem missing_key_before_network (cfg : Config) (net : HttpOutcome)
    (hkey : pyStrip (cfg.key_value.getD "") = "") :
    enforce_license cfg net none =
      (Except.error (PyError.licenseValidationError
        ("No license key found. Set environment variable " ++ cfg.ENV_LICENSE_KEY ++ ".")),
       none, 0) := by
  simp [enforce_license, _get_license_key_from_env, hkey]

/-- C6 witness: variable unset, and variable set to blanks only. -/
theorem missing_key_before_network_witness :
    enforce_license { cfgStd with key_value := none }
        (HttpOutcome.response 200 "" none) none =
      (Except.error (PyError.licenseValidationError
        ("No license key found. Set environment variable " ++ "MYAPP_LICENSE_KEY" ++ ".")),
       none, 0)
    ∧ enforce_license { cfgStd with key_value := some "   " }
        (HttpOutcome.response 200 "" none) none =
      (Except.error (PyError.licenseValidationError
        ("No license key found. Set environment variable " ++ "MYAPP_LICENSE_KEY" ++ ".")),
       none, 0) :=
  ⟨missing_key_before_network { cfgStd with key_value := none }
      (HttpOutcome.response 200 "" none) (by decide),
   missing_key_before_network { cfgStd with key_value := some "   " }
      (HttpOutcome.response 200 "" none) (by decide)⟩

/-- C7: a success response with an unparseable body makes `resp.json()`
raise, and that error reaches the caller of `enforce_license` as the raw
JSON decode error, not wrapped in `LicenseValidationError` — the `try`
block in `_verify_license_online` only covers `requests.get`, and
`enforce_license` catches nothing. -/
theorem malformed_body_unwrapped_error :
    (enforce_license cfgStd (HttpOutcome.response 200 "<html>oops" none) none).1 =
      Except.error (PyError.jsonDecodeError "Expecting value: line 1 column 1 (char 0)")
    ∧ ∀ m : String,
        (enforce_license cfgStd (HttpOutcome.response 200 "<html>oops" none) none).1 ≠
          Except.error (PyError.licenseValidationError m) := by
  refine ⟨rfl, fun m hc => ?_⟩
  rw [show (enforce_license cfgStd (HttpOutcome.response 200 "<html>oops" none) none).1 =
      Except.error (PyError.jsonDecodeError "Expecting value: line 1 column 1 (char 0)")
      from rfl] at hc
  exact PyError.noConfusion (Except.error.inj hc)

/-- C8: outside development mode with a configured URL, a 404 response is
a normal negative result (`valid=False`, reason "License not found"),
while every other non-success status code (400–599, the codes `resp.ok`
rejects) raises a `LicenseValidationError` carrying the status code and
the body text. -/
theorem verify_404_normal_other_errors (cfg : Config) (key text : String)
    (body : Option WireData) (code : Nat)
    (hdev : cfg.DISABLE_LICENSE_CHECK = false)
    (hurl : ¬ cfg.LICENSE_SERVER_URL = "") :
    _verify_license_online cfg (HttpOutcome.response 404 text body) key =
      (Except.ok { valid := false, reason := "License not found" }, 1)
    ∧ (400 ≤ code → code < 600 → ¬ code = 404 →
        _verify_license_online cfg (HttpOutcome.response code text body) key =
          (Except.error (PyError.licenseValidationError
            ("License server error (" ++ toString code ++ "): " ++ text)), 1)) := by
  constructor
  · simp [_verify_license_online, hdev, hurl]
  · intro h1 h2 h3
    simp [_verify_license_online, hdev, hurl, h1, h2, h3]

/-- C8 witness: 404 with a parseable body, and 500 with body text. -/
theorem verify_404_normal_other_errors_witness :
    _verify_license_online cfgStd (HttpOutcome.response 404 "gone" none) "KEY-123" =
      (Except.ok { valid := false, reason := "License not found" }, 1)
    ∧ _verify_license_online cfgStd (HttpOutcome.response 500 "boom" none) "KEY-123" =
      (Except.error (PyError.licenseValidationError
        ("License server error (" ++ toString 500 ++ "): " ++ "boom")), 1) :=
  ⟨(verify_404_normal_other_errors cfgStd "KEY-123" "gone" none 500 rfl (by decide)).1,
   (verify_404_normal_other_errors cfgStd "KEY-123" "boom" none 500 rfl (by decide)).2
     (by decide) (by decide) (by decide)⟩

/-- C9: constructing a `LicenseStatus` from a parsed wire response
preserves the optional fields exactly: absent `license_id`, `plan`,
`seats`, `customer_name` stay `none` (not `""` or `0`), so an absent plan
is distinguishable from a plan that is the empty string. -/
theorem statusFromWire_preserves_absent (d : WireData) :
    (statusFromWire d).license_id = d.license_id
    ∧ (statusFromWire d).plan = d.plan
    ∧ (statusFromWire d).seats = d.seats
    ∧ (statusFromWire d).customer_name = d.customer_name
    ∧ (statusFromWire { plan := none }).plan ≠ (statusFromWire { plan := some "" }).plan := by
  refine ⟨rfl, rfl, rfl, rfl, ?_⟩
  decide

/-- C10: a valid status whose plan is the empty string is classified
differently by the two gates: `require_license(p)` (for any non-empty
required plan `p`) raises the plan-mismatch `PermissionError` because the
`is None` test treats `""` as an assigned plan, while
`require_license_any([p])` raises the no-plan-assigned `PermissionError`
because the truthiness test `if not status.plan` treats `""` as no
plan. -/
theorem empty_plan_gates_differ {α β : Type} (f : α → β) (a : α)
    (cfg : Config) (net : HttpOutcome) (st : LicenseStatus) (p : String)
    (hv : st.valid = true) (hp : st.plan = some "") (hne : ¬ p = "") :
    require_license (some p) f cfg net (some st) a =
      (Except.error (PyError.permissionError
        ("This feature requires plan '" ++ p ++ "', but your license plan is '" ++ "" ++ "'.")),
       some st, 0)
    ∧ require_license_any [p] f cfg net (some st) a =
      (Except.error (PyError.permissionError
        ("This feature requires one of plans " ++ pyListRepr [p] ++
          ", but your license has no plan assigned.")),
       some st, 0) := by
  constructor
  · have hne' : ¬ ("" : String) = p := fun h => hne h.symm
    simp [require_license, get_license_status, hv, hp, hne']
  · simp [require_license_any, get_license_status, hv, hp]

/-- C10 witness: the two gates on the same empty-plan status with the
required plan "X". -/
theorem empty_plan_gates_differ_witness :
    require_license (some "X") (fun n : Nat => n + 1) cfgStd
        (HttpOutcome.transportError "down") (some stEmptyPlan) 1 =
      (Except.error (PyError.permissionError
        ("This feature requires plan '" ++ "X" ++ "', but your license plan is '" ++ "" ++ "'.")),
       some stEmptyPlan, 0)
    ∧ require_license_any ["X"] (fun n : Nat => n + 1) cfgStd
        (HttpOutcome.transportError "down") (some stEmptyPlan) 1 =
      (Except.error (PyError.permissionError
        ("This feature requires one of plans " ++ pyListRepr ["X"] ++
          ", but your license has no plan assigned.")),
       some stEmptyPlan, 0) :=
  empty_plan_gates_differ (fun n : Nat => n + 1) 1 cfgStd
    (HttpOutcome.transportError "down") stEmptyPlan "X" rfl rfl (by decide)
